import Mathlib

/-!
Verification of the plan-execution pipeline and report synthesizer of the
Research-Agent repository (`backend/agent/executor.py`,
`backend/agent/synthesizer.py`, `config.py`).

Python dictionaries are embedded as Lean structures whose fields are the
keys the pipeline reads; a field of type `Option α` models a key that may be
absent (`none`) or present (`some v`), matching `dict.get(key, default)` with
`Option.getD`.  Exceptions raised by the underlying tools are modelled with
`Except String`: `Except.error e` is an exception whose `str()` is `e`.
Each tool behaviour is indexed by a global invocation counter, threaded
through the pipeline, so that successive invocations of the same tool may
behave differently (network nondeterminism).
-/

namespace ResearchAgent

/-- The constant `config.MAX_SUB_QUESTIONS` (config.py line 46). -/
def MAX_SUB_QUESTIONS : Nat := 5

/-- The constant `config.MAX_URLS_TO_SCRAPE` (config.py line 47). -/
def MAX_URLS_TO_SCRAPE : Nat := 3

/-- Python's slice `s[:n]`: the first `n` characters of `s`.  Defined on
the character list so that its length behaves like `List.take`. -/
def pySlice (s : String) (n : Nat) : String := String.mk (s.data.take n)

/-- One item of a search-result list: a dict from which the pipeline reads
the keys `url` and `title`. -/
structure SearchItem where
  url : Option String := none
  title : Option String := none
deriving Repr, DecidableEq

/-- A tool result payload (the value stored under the `result` key of a
`ToolInvocationResult`), duck-typed: the record of all dict keys that the
executor and synthesizer ever read from a payload. -/
structure Payload where
  results : Option (List SearchItem) := none
  url : Option String := none
  title : Option String := none
  text : Option String := none
deriving Repr, DecidableEq

/-- The dict returned by `ToolExecutor.execute_tool` (executor.py lines
38-86): `tool` and `success` are always present, `result` is present on
success, `error` on failure. -/
structure ToolInvocationResult where
  tool : String
  success : Bool
  result : Option Payload := none
  error : Option String := none
deriving Repr, DecidableEq

/-- One entry of `ExecutionLog.errors` (executor.py lines 215-218). -/
structure StageError where
  tool : String
  error : String
deriving Repr, DecidableEq

/-- A research plan, as read by `execute_plan` (keys `query`,
`sub_questions`, `tool_sequence`; each may be absent). -/
structure Plan where
  query : Option String := none
  sub_questions : Option (List String) := none
  tool_sequence : Option (List String) := none
deriving Repr

/-- The keyword arguments of `execute_tool`: the record of every `kwargs`
key the routing code reads (executor.py lines 49-67). -/
structure KwArgs where
  query : Option String := none
  url : Option String := none
  text : Option String := none
  data : Option String := none
  create_chart : Option Bool := none
  expression : Option String := none
  max_length : Option Nat := none
  style : Option String := none
deriving Repr

/-- Behaviour of the five underlying tools.  Each method takes the global
invocation counter and the arguments extracted by the routing code, and
either returns a payload (`Except.ok`) or raises (`Except.error e`, where
`e` is the stringified exception). -/
structure ToolEnv where
  search : Nat → String → Except String Payload
  scrape : Nat → String → Except String Payload
  analyze : Nat → Option String → Option String → Bool → Except String Payload
  calculate : Nat → String → Except String Payload
  summarize : Nat → String → Option Nat → String → Except String Payload

/-- The keys of `self.tools` (executor.py lines 16-22). -/
def toolRegistry : List String :=
  ["web_search", "scraper", "data_analysis", "calculator", "summarizer"]

/-- The routed tool call inside the `try` block of `execute_tool`
(executor.py lines 45-73).  The final `else` branch (lines 68-73) returns a
failure dict of the same shape the `except` branch produces, so it is
modelled as an error value. -/
def toolCall (env : ToolEnv) (n : Nat) (tool_name : String) (kwargs : KwArgs) :
    Except String Payload :=
  if tool_name = "web_search" then env.search n (kwargs.query.getD "")
  else if tool_name = "scraper" then env.scrape n (kwargs.url.getD "")
  else if tool_name = "data_analysis" then
    env.analyze n kwargs.text kwargs.data (kwargs.create_chart.getD false)
  else if tool_name = "calculator" then env.calculate n (kwargs.expression.getD "")
  else if tool_name = "summarizer" then
    env.summarize n (kwargs.text.getD "") kwargs.max_length (kwargs.style.getD "concise")
  else Except.error ("Tool execution not implemented: " ++ tool_name)

/-- The method `ToolExecutor.execute_tool` (executor.py lines 24-86).
Total: every
exception from the routed call is converted to a failure result. -/
def execute_tool (env : ToolEnv) (n : Nat) (tool_name : String) (kwargs : KwArgs) :
    ToolInvocationResult :=
  if tool_name ∈ toolRegistry then
    match toolCall env n tool_name kwargs with
    | Except.ok payload =>
        { tool := tool_name, success := true, result := some payload, error := none }
    | Except.error e =>
        { tool := tool_name, success := false, result := none, error := some e }
  else
    { tool := tool_name, success := false, result := none,
      error := some ("Unknown tool: " ++ tool_name) }

/-- URLs appended to `urls_to_scrape` from one search invocation result
(executor.py lines 131-136 and 144-149): only when the result succeeded and
carries a `result` key whose dict has a `results` key; each item
contributes its `url` when the key is present. -/
def urlsFromSearchResult (result : ToolInvocationResult) : List String :=
  if result.success then
    match result.result with
    | some search_data =>
        match search_data.results with
        | some items => items.filterMap (fun item => item.url)
        | none => []
    | none => []
  else []

/-- The per-sub-question search loop (executor.py lines 138-149): one
search invocation per question, collecting URLs in question order.
Returns the invocation results, the collected URLs, and the next counter. -/
def searchLoop (env : ToolEnv) :
    List String → Nat → List ToolInvocationResult × List String × Nat
  | [], n => ([], [], n)
  | q :: rest, n =>
    let result := execute_tool env n "web_search" { query := some q }
    let next := searchLoop env rest (n + 1)
    (result :: next.1, urlsFromSearchResult result ++ next.2.1, next.2.2)

/-- The `web_search` stage (executor.py lines 123-151).  If the truncated
sub-question list has more than 3 entries, a single invocation with the
plan's query (defaulting to the first sub-question when the `query` key is
absent); otherwise one invocation per sub-question. -/
def webSearchStage (env : ToolEnv) (n : Nat) (plan : Plan)
    (limited : List String) : List ToolInvocationResult × List String × Nat :=
  if limited.length > 3 then
    let result := execute_tool env n "web_search"
      { query := some (plan.query.getD (limited.headD "")) }
    ([result], urlsFromSearchResult result, n + 1)
  else
    searchLoop env limited n

/-- The scrape loop (executor.py lines 158-164).  `succ` is the number of
successful scrapes already recorded in this stage; the loop appends the
current result and breaks as soon as the running success count reaches 2. -/
def scrapeLoop (env : ToolEnv) :
    List String → Nat → Nat → List ToolInvocationResult × Nat
  | [], n, _ => ([], n)
  | url :: rest, n, succ =>
    let result := execute_tool env n "scraper" { url := some url }
    let succ2 := succ + (if result.success then 1 else 0)
    if succ2 ≥ 2 then ([result], n + 1)
    else
      let next := scrapeLoop env rest (n + 1) succ2
      (result :: next.1, next.2)

/-- The `scraper` stage (executor.py lines 153-166): scrape at most
`MAX_URLS_TO_SCRAPE` of the collected URLs in order, stopping early after
2 successes. -/
def scraperStage (env : ToolEnv) (n : Nat) (urls_to_scrape : List String) :
    List ToolInvocationResult × Nat :=
  scrapeLoop env (urls_to_scrape.take MAX_URLS_TO_SCRAPE) n 0

/-- The buffer `text_to_analyze` (executor.py lines 171-175): the `text` of every
prior successful scraper result, each followed by a single space. -/
def analysisText (tool_results : List ToolInvocationResult) : String :=
  tool_results.foldl
    (fun acc r =>
      if r.tool = "scraper" ∧ r.success = true then
        acc ++ ((r.result.getD {}).text.getD "") ++ " "
      else acc) ""

/-- The `data_analysis` stage (executor.py lines 168-183): invoke once with
`create_chart=true` on the accumulated buffer when it is non-empty,
otherwise skip (no invocation). -/
def dataAnalysisStage (env : ToolEnv) (n : Nat)
    (tool_results : List ToolInvocationResult) :
    Option ToolInvocationResult × Nat :=
  let text_to_analyze := analysisText tool_results
  if text_to_analyze ≠ "" then
    (some (execute_tool env n "data_analysis"
      { text := some text_to_analyze, create_chart := some true }), n + 1)
  else (none, n)

/-- The `text_to_summarize` accumulation (executor.py lines 188-197): for each
prior successful scraper result, append its text truncated to 2000
characters plus a blank line, and stop scanning once the buffer exceeds
3000 characters. -/
def summaryTextLoop : List ToolInvocationResult → String → String
  | [], acc => acc
  | r :: rest, acc =>
    if r.tool = "scraper" ∧ r.success = true then
      let text := (r.result.getD {}).text.getD ""
      let acc2 := acc ++ pySlice text 2000 ++ "\n\n"
      if acc2.length > 3000 then acc2 else summaryTextLoop rest acc2
    else summaryTextLoop rest acc

/-- The summarizer input buffer built from the result log so far. -/
def summaryText (tool_results : List ToolInvocationResult) : String :=
  summaryTextLoop tool_results ""

/-- The `summarizer` stage (executor.py lines 185-206): invoke once on the
buffer hard-truncated to 3000 characters, with `max_length=150` and
`style='concise'`, when the buffer is non-empty; otherwise skip. -/
def summarizerStage (env : ToolEnv) (n : Nat)
    (tool_results : List ToolInvocationResult) :
    Option ToolInvocationResult × Nat :=
  let text_to_summarize := summaryText tool_results
  if text_to_summarize ≠ "" then
    (some (execute_tool env n "summarizer"
      { text := some (pySlice text_to_summarize 3000), max_length := some 150,
        style := some "concise" }), n + 1)
  else (none, n)

/-- The mutable state of one `execute_plan` run: the accumulated result
log, the error list, the shared `urls_to_scrape` accumulator, the
`success` flag of `all_results`, and the invocation counter. -/
structure ExecState where
  tool_results : List ToolInvocationResult
  errors : List StageError
  urls_to_scrape : List String
  success : Bool
  counter : Nat
deriving Repr

/-- The error-list entries contributed by a stage-level single result
(executor.py lines 213-218): `tool_result` is `none` when the stage set no
`tool_result` (search, scrape, and skipped stages), in which case nothing
is appended; a failed result is appended as `{tool, error}` with the error
defaulting to `"Unknown error"`. -/
def stageErrors (tool_name : String) : Option ToolInvocationResult → List StageError
  | none => []
  | some r =>
      if r.success then []
      else [{ tool := tool_name, error := r.error.getD "Unknown error" }]

/-- One iteration of the `for tool_name in tool_sequence` loop of
`execute_plan` (executor.py lines 120-218). -/
def execStage (env : ToolEnv) (plan : Plan) (limited : List String)
    (st : ExecState) (tool_name : String) : ExecState :=
  if tool_name = "web_search" then
    let staged := webSearchStage env st.counter plan limited
    { st with tool_results := st.tool_results ++ staged.1,
              urls_to_scrape := st.urls_to_scrape ++ staged.2.1,
              counter := staged.2.2 }
  else if tool_name = "scraper" then
    let staged := scraperStage env st.counter st.urls_to_scrape
    { st with tool_results := st.tool_results ++ staged.1,
              counter := staged.2 }
  else if tool_name = "data_analysis" then
    let staged := dataAnalysisStage env st.counter st.tool_results
    { st with tool_results := st.tool_results ++ staged.1.toList,
              errors := st.errors ++ stageErrors tool_name staged.1,
              counter := staged.2 }
  else if tool_name = "summarizer" then
    let staged := summarizerStage env st.counter st.tool_results
    { st with tool_results := st.tool_results ++ staged.1.toList,
              errors := st.errors ++ stageErrors tool_name staged.1,
              counter := staged.2 }
  else
    let tool_result := execute_tool env st.counter tool_name {}
    { st with tool_results := st.tool_results ++ [tool_result],
              errors := st.errors ++ stageErrors tool_name (some tool_result),
              counter := st.counter + 1 }

/-- The `ExecutionLog` dict returned by `execute_plan` (executor.py lines
105-110, 220). -/
structure ExecutionLog where
  plan : Plan
  tool_results : List ToolInvocationResult
  success : Bool
  errors : List StageError

/-- The expression `sub_questions or plan.get('sub_questions', [])` (executor.py line
103): a passed-in empty list is falsy in Python, so it also falls back to
the plan's list. -/
def effectiveSubQuestions (sub_questions : Option (List String)) (plan : Plan) :
    List String :=
  match sub_questions with
  | some l => if l.isEmpty then plan.sub_questions.getD [] else l
  | none => plan.sub_questions.getD []

/-- The method `ToolExecutor.execute_plan` (executor.py lines 88-220). -/
def execute_plan (env : ToolEnv) (plan : Plan)
    (sub_questions : Option (List String) := none) : ExecutionLog :=
  let tool_sequence := plan.tool_sequence.getD []
  let limited := (effectiveSubQuestions sub_questions plan).take MAX_SUB_QUESTIONS
  let final := tool_sequence.foldl (execStage env plan limited)
    { tool_results := [], errors := [], urls_to_scrape := [], success := true,
      counter := 0 }
  { plan := plan, tool_results := final.tool_results, success := final.success,
    errors := final.errors }

/-- A citation `{title, url}` (synthesizer.py lines 45-48, 56-59). -/
structure Citation where
  title : String
  url : String
deriving Repr, DecidableEq

/-- The inner loop over one search result's items (synthesizer.py lines
40-49): an item is added when its `url` is non-empty and unseen; the title
defaults to the url when falsy.  The Python `set` of seen URLs is modelled
as a list queried by membership. -/
def addSearchItems :
    List SearchItem → List Citation → List String → List Citation × List String
  | [], citations, seen => (citations, seen)
  | item :: rest, citations, seen =>
    let url := item.url.getD ""
    let title := item.title.getD ""
    if url ≠ "" ∧ url ∉ seen then
      addSearchItems rest
        (citations ++ [{ title := if title ≠ "" then title else url, url := url }])
        (seen ++ [url])
    else addSearchItems rest citations seen

/-- The scan of `Synthesizer.extract_citations` (synthesizer.py lines
28-62), threading the citation list and the seen-URL set. -/
def extractLoop :
    List ToolInvocationResult → List Citation → List String → List Citation
  | [], citations, _ => citations
  | r :: rest, citations, seen =>
    if r.success = false then extractLoop rest citations seen
    else
      let tool_data := r.result.getD {}
      if r.tool = "web_search" then
        let stepped := addSearchItems (tool_data.results.getD []) citations seen
        extractLoop rest stepped.1 stepped.2
      else if r.tool = "scraper" then
        let url := tool_data.url.getD ""
        let title := tool_data.title.getD ""
        if url ≠ "" ∧ url ∉ seen then
          extractLoop rest
            (citations ++ [{ title := if title ≠ "" then title else url, url := url }])
            (seen ++ [url])
        else extractLoop rest citations seen
      else extractLoop rest citations seen

/-- The method `Synthesizer.extract_citations` (synthesizer.py lines 19-62). -/
def extract_citations (tool_results : List ToolInvocationResult) : List Citation :=
  extractLoop tool_results [] []

/-- The constant `config.MAX_RESPONSE_TOKENS` (config.py line 40). -/
def MAX_RESPONSE_TOKENS : Nat := 2000

/-- The external collaborators of the synthesizer: the generation client
(`GroqClient.generate`, taking prompt, system prompt and max_tokens;
`Except.error e` models a raised exception; the fixed temperature 0.7 is
a float and carries no information, so it is not a parameter), and Python's
`str()` rendering of payload dicts, which is opaque to the pipeline and
therefore modelled as an oracle. -/
structure SynthEnv where
  generate : String → String → Nat → Except String String
  pyStrItems : List SearchItem → String
  pyStrPayload : Payload → String

/-- The grouping pass of `generate_report` (synthesizer.py lines 84-103). -/
structure CollectedInfo where
  search_info : List Payload
  scraped_content : List Payload
  data_analysis : Option Payload
  summaries : List Payload

/-- Lines 89-103 of synthesizer.py: group successful results by tool name;
`data_analysis` keeps the last successful payload. -/
def collectInfo (tool_results : List ToolInvocationResult) : CollectedInfo :=
  tool_results.foldl
    (fun info r =>
      if r.success = false then info
      else
        let tool_data := r.result.getD {}
        if r.tool = "web_search" then
          { info with search_info := info.search_info ++ [tool_data] }
        else if r.tool = "scraper" then
          { info with scraped_content := info.scraped_content ++ [tool_data] }
        else if r.tool = "data_analysis" then
          { info with data_analysis := some tool_data }
        else if r.tool = "summarizer" then
          { info with summaries := info.summaries ++ [tool_data] }
        else info)
    { search_info := [], scraped_content := [], data_analysis := none,
      summaries := [] }

/-- The list `context_parts` (synthesizer.py lines 106-121): the first 3 items of
each search payload having a `results` key, the first 1000 characters of
each of the first 3 scraped payloads having a `text` key, and the
stringified data-analysis payload when present (`if data_analysis:` is
dict truthiness; a successful data-analysis result always carries a
non-empty payload dict, modelled as `isSome`). -/
def contextParts (senv : SynthEnv) (info : CollectedInfo) : List String :=
  (info.search_info.filterMap (fun search =>
      match search.results with
      | some items => some ("Search Results:\n" ++ senv.pyStrItems (items.take 3))
      | none => none))
  ++ ((info.scraped_content.take 3).filterMap (fun scraped =>
      match scraped.text with
      | some text =>
          some ("Content from " ++ scraped.title.getD "page" ++ ":\n" ++ pySlice text 1000)
      | none => none))
  ++ (match info.data_analysis with
      | some da => ["Data Analysis:\n" ++ senv.pyStrPayload da]
      | none => [])

/-- The LLM context `context` (synthesizer.py line 123). -/
def buildContext (senv : SynthEnv) (tool_results : List ToolInvocationResult) :
    String :=
  String.intercalate "\n\n" (contextParts senv (collectInfo tool_results))

/-- The system prompt of `generate_report` (synthesizer.py line 126). -/
def synthSystemPrompt : String :=
  "You are a research report writer. Create a comprehensive, well-structured research report based on the provided information. The report should be professional, accurate, and well-organized."

/-- The user prompt of `generate_report` (synthesizer.py lines 128-150). -/
def reportPrompt (query context : String) : String :=
  "Based on the following research query and collected information, create a comprehensive research report in Markdown format.\n\nResearch Query: "
  ++ query
  ++ "\n\nCollected Information:\n"
  ++ context
  ++ "\n\nCreate a report with the following structure:\n1. # Title (based on the query)\n2. ## Executive Summary (2-3 paragraphs)\n3. ## Key Findings (bullet points of main findings)\n4. ## Deep Dive (detailed sections covering different aspects)\n5. ## Data Analysis (if data was found, include tables/charts descriptions)\n6. ## Conclusion (summary and implications)\n7. ## References (list all source URLs)\n\nMake sure to:\n- Synthesize information from multiple sources\n- Provide accurate information\n- Include specific details and numbers when available\n- Write in a professional, academic style\n- Cite sources naturally in the text\n- Format the report properly in Markdown"

/-- The numbered reference list: one line per citation, numbered from 1,
holding the title in square brackets followed by the url in parentheses
(synthesizer.py lines 163-164 and 197-198). -/
def referencesLines : List Citation → Nat → String
  | [], _ => ""
  | c :: rest, i =>
    toString i ++ ". [" ++ c.title ++ "](" ++ c.url ++ ")\n"
      ++ referencesLines rest (i + 1)

/-- The membership test of a references heading in `markdown_report`
(synthesizer.py line 161),
modelled as substring containment on character lists. -/
def hasReferencesSection (markdown : String) : Bool :=
  decide (List.IsInfix ("## References".toList) markdown.toList)

/-- The templated fallback report (synthesizer.py lines 175-198): the same
section skeleton with the query and the first 2000 characters of the
context inlined, and the numbered reference list. -/
def fallbackMarkdown (query context : String) (citations : List Citation) :
    String :=
  "# Research Report: " ++ query
  ++ "\n\n## Executive Summary\n\nResearch was conducted on: " ++ query
  ++ "\n\n## Key Findings\n\n- Information gathered from "
  ++ toString citations.length
  ++ " sources\n- Multiple perspectives analyzed\n\n## Deep Dive\n\n"
  ++ pySlice context 2000
  ++ "\n\n## Conclusion\n\nResearch completed with findings from various sources.\n\n## References\n\n"
  ++ referencesLines citations 1

/-- The `Report` dict returned by `generate_report` (synthesizer.py lines
166-171 and 200-206). -/
structure Report where
  query : String
  markdown : String
  citations : List Citation
  success : Bool
  error : Option String := none
deriving Repr, DecidableEq

/-- The method `Synthesizer.generate_report` (synthesizer.py lines 64-206).
Total:
an exception from the generation collaborator is caught and converted to
the fallback report.  The `plan` parameter is accepted and never read,
exactly as in the source. -/
def generate_report (senv : SynthEnv) (query : String) (plan : Plan)
    (tool_results : List ToolInvocationResult) : Report :=
  let citations := extract_citations tool_results
  let context := buildContext senv tool_results
  match senv.generate (reportPrompt query context) synthSystemPrompt
      (min (MAX_RESPONSE_TOKENS * 2) 3000) with
  | Except.ok markdown_report =>
      let md :=
        if hasReferencesSection markdown_report = false ∧ citations ≠ [] then
          markdown_report ++ "\n\n## References\n\n" ++ referencesLines citations 1
        else markdown_report
      { query := query, markdown := md, citations := citations, success := true,
        error := none }
  | Except.error e =>
      { query := query, markdown := fallbackMarkdown query context citations,
        citations := citations, success := false, error := some e }

/-- A tool environment in which every underlying tool raises an exception
whose message is `boom`. -/
def failEnv : ToolEnv where
  search := fun _ _ => Except.error "boom"
  scrape := fun _ _ => Except.error "boom"
  analyze := fun _ _ _ _ => Except.error "boom"
  calculate := fun _ _ => Except.error "boom"
  summarize := fun _ _ _ _ => Except.error "boom"

/-- A tool environment in which every underlying tool returns an empty
payload dict without raising. -/
def okEnv : ToolEnv where
  search := fun _ _ => Except.ok {}
  scrape := fun _ _ => Except.ok {}
  analyze := fun _ _ _ _ => Except.ok {}
  calculate := fun _ _ => Except.ok {}
  summarize := fun _ _ _ _ => Except.ok {}

/-- A one-stage plan whose only stage is a web search over one
sub-question. -/
def c1plan : Plan :=
  { query := some "q", sub_questions := some ["q1"],
    tool_sequence := some ["web_search"] }

/-- The initial `all_results` state of `execute_plan` (executor.py lines
105-113). -/
def initState : ExecState :=
  { tool_results := [], errors := [], urls_to_scrape := [], success := true,
    counter := 0 }

/-- The count `sum(1 for r in scrape_results if r.get('success'))` (executor.py line
162): the number of successful results in a list. -/
def successCount (results : List ToolInvocationResult) : Nat :=
  (results.filter (fun r => r.success)).length

/-- Invariant of the `extract_citations` scan: the collected citation URLs
are pairwise distinct, non-empty, and all recorded in the seen set. -/
def citInv (citations : List Citation) (seen : List String) : Prop :=
  (citations.map Citation.url).Nodup ∧ (∀ c ∈ citations, c.url ∈ seen) ∧
    (∀ c ∈ citations, c.url ≠ "")

/-- A successful scraper result carrying the page text `hi`. -/
def scrapedHi : ToolInvocationResult :=
  { tool := "scraper", success := true, result := some { text := some "hi" },
    error := none }

/-- A synthesizer environment whose generation collaborator always raises. -/
def downEnv : SynthEnv where
  generate := fun _ _ _ => Except.error "llm down"
  pyStrItems := fun _ => ""
  pyStrPayload := fun _ => ""

/-! ## Theorems -/

/-- No branch of the stage loop writes the `success` field of
`all_results`. -/
theorem execStage_success (env : ToolEnv) (plan : Plan) (limited : List String)
    (st : ExecState) (tool_name : String) :
    (execStage env plan limited st tool_name).success = st.success := by
  unfold execStage
  repeat first | rfl | split

/-- Folding the stage loop over any tool sequence preserves the `success`
field. -/
theorem foldl_execStage_success (env : ToolEnv) (plan : Plan)
    (limited : List String) :
    ∀ (seq : List String) (st : ExecState),
      (seq.foldl (execStage env plan limited) st).success = st.success
  | [], _ => rfl
  | name :: rest, st => by
    rw [List.foldl_cons, foldl_execStage_success env plan limited rest,
      execStage_success]

/-- C4: for every tool environment, plan and sub-question list, the
`ExecutionLog` returned by `execute_plan` has `success = true`: the flag
is initialized `true` and no code path of the stage loop ever writes it. -/
theorem C4_success_always_true (env : ToolEnv) (plan : Plan)
    (sub_questions : Option (List String)) :
    (execute_plan env plan sub_questions).success = true := by
  unfold execute_plan
  exact foldl_execStage_success env plan _ _ _

/-- C6: `execute_tool` never raises; an unregistered tool name yields a
failure result whose error is `"Unknown tool: <name>"`, and when the
routed underlying tool raises, the failure result carries the stringified
exception.  Totality of `execute_tool` as a Lean function is the
never-raises half of the claim. -/
theorem C6_execute_tool_error_handling (env : ToolEnv) (n : Nat)
    (tool_name : String) (kwargs : KwArgs) :
    (tool_name ∉ toolRegistry →
      execute_tool env n tool_name kwargs =
        { tool := tool_name, success := false, result := none,
          error := some ("Unknown tool: " ++ tool_name) }) ∧
    (∀ e, tool_name ∈ toolRegistry →
      toolCall env n tool_name kwargs = Except.error e →
      execute_tool env n tool_name kwargs =
        { tool := tool_name, success := false, result := none,
          error := some e }) := by
  constructor
  · intro h
    unfold execute_tool
    rw [if_neg h]
  · intro e hmem hcall
    unfold execute_tool
    rw [if_pos hmem, hcall]

/-- C6 witness: an unknown tool name and a raising web search, both at
concrete inputs. -/
theorem C6_execute_tool_error_handling_witness :
    execute_tool failEnv 0 "no_such_tool" {} =
      { tool := "no_such_tool", success := false, result := none,
        error := some ("Unknown tool: " ++ "no_such_tool") } ∧
    execute_tool failEnv 0 "web_search" {} =
      { tool := "web_search", success := false, result := none,
        error := some "boom" } :=
  ⟨(C6_execute_tool_error_handling failEnv 0 "no_such_tool" {}).1 (by decide),
   (C6_execute_tool_error_handling failEnv 0 "web_search" {}).2 "boom"
     (by decide) rfl⟩

/-- C9: `generate_report` never raises; whenever the generation
collaborator raises, the returned report is the deterministic templated
fallback (section skeleton with the query, the context truncated to 2000
characters, and the numbered reference list of the extracted citations)
with `success = false` and the stringified exception as its error. -/
theorem C9_generate_report_fallback (senv : SynthEnv) (query : String)
    (plan : Plan) (tool_results : List ToolInvocationResult) (e : String)
    (h : senv.generate
        (reportPrompt query (buildContext senv tool_results)) synthSystemPrompt
        (min (MAX_RESPONSE_TOKENS * 2) 3000) = Except.error e) :
    generate_report senv query plan tool_results =
      { query := query,
        markdown := fallbackMarkdown query (buildContext senv tool_results)
          (extract_citations tool_results),
        citations := extract_citations tool_results, success := false,
        error := some e } := by
  simp only [generate_report, h]

/-- C9 witness: a concrete run with an always-raising collaborator and an
empty result log. -/
theorem C9_generate_report_fallback_witness :
    generate_report downEnv "ai jobs" c1plan [] =
      { query := "ai jobs",
        markdown := fallbackMarkdown "ai jobs" (buildContext downEnv [])
          (extract_citations []),
        citations := extract_citations [], success := false,
        error := some "llm down" } :=
  C9_generate_report_fallback downEnv "ai jobs" c1plan [] "llm down" rfl

/-- The per-sub-question search loop issues exactly one invocation per
question, in question order, with consecutive counter values. -/
theorem searchLoop_results (env : ToolEnv) :
    ∀ (qs : List String) (n : Nat),
      (searchLoop env qs n).1 =
        (List.range qs.length).map
          (fun i => execute_tool env (n + i) "web_search"
            { query := some (qs.getD i "") })
  | [], _ => rfl
  | q :: rest, n => by
    have ih := searchLoop_results env rest (n + 1)
    simp only [searchLoop, ih, List.length_cons, List.range_succ_eq_map,
      List.map_cons, List.map_map, Nat.add_zero, List.getD_cons_zero,
      List.cons.injEq]
    refine ⟨trivial, ?_⟩
    apply List.map_congr_left
    intro i _
    simp only [Function.comp_apply, List.getD_cons_succ, Nat.succ_eq_add_one]
    congr 1
    omega

/-- C2: for every web_search stage, after the sub-question list is
truncated to `MAX_SUB_QUESTIONS = 5`: a truncated list of more than 3
entries yields exactly one invocation, using the plan's main query
(defaulting to the first sub-question when the plan has no `query` key);
otherwise exactly one invocation per sub-question, in order. -/
theorem C2_search_stage_invocations (env : ToolEnv) (n : Nat) (plan : Plan)
    (subQs : List String) :
    ((subQs.take MAX_SUB_QUESTIONS).length > 3 →
      (webSearchStage env n plan (subQs.take MAX_SUB_QUESTIONS)).1 =
        [execute_tool env n "web_search"
          { query := some
              (plan.query.getD ((subQs.take MAX_SUB_QUESTIONS).headD "")) }]) ∧
    ((subQs.take MAX_SUB_QUESTIONS).length ≤ 3 →
      (webSearchStage env n plan (subQs.take MAX_SUB_QUESTIONS)).1 =
        (List.range (subQs.take MAX_SUB_QUESTIONS).length).map
          (fun i => execute_tool env (n + i) "web_search"
            { query := some ((subQs.take MAX_SUB_QUESTIONS).getD i "") })) := by
  constructor
  · intro h
    unfold webSearchStage
    rw [if_pos h]
  · intro h
    unfold webSearchStage
    rw [if_neg (by omega), searchLoop_results]

/-- C2 witness: exactly 4 sub-questions yield 1 search invocation and
exactly 3 sub-questions yield 3 search invocations. -/
theorem C2_search_stage_invocations_witness :
    (webSearchStage failEnv 0 c1plan
        (["a", "b", "c", "d"].take MAX_SUB_QUESTIONS)).1.length = 1 ∧
    (webSearchStage failEnv 0 c1plan
        (["a", "b", "c"].take MAX_SUB_QUESTIONS)).1.length = 3 := by
  constructor
  · rw [(C2_search_stage_invocations failEnv 0 c1plan ["a", "b", "c", "d"]).1
      (by decide)]
    rfl
  · rw [(C2_search_stage_invocations failEnv 0 c1plan ["a", "b", "c"]).2
      (by decide)]
    rfl

/-- The `successCount` of a cons. -/
theorem successCount_cons (r : ToolInvocationResult)
    (l : List ToolInvocationResult) :
    successCount (r :: l) = (if r.success then 1 else 0) + successCount l := by
  unfold successCount
  rw [List.filter_cons]
  split <;> simp [Nat.add_comm]

/-- The scrape loop consumes a prefix of the URL list in original order,
one invocation per consumed URL, with consecutive counter values. -/
theorem scrapeLoop_shape (env : ToolEnv) :
    ∀ (urls : List String) (n succ : Nat),
      ∃ k, k ≤ urls.length ∧
        (scrapeLoop env urls n succ).1 =
          (List.range k).map (fun i => execute_tool env (n + i) "scraper"
            { url := some (urls.getD i "") })
  | [], _, _ => ⟨0, Nat.le_refl 0, rfl⟩
  | url :: rest, n, succ => by
    by_cases h :
        succ + (if (execute_tool env n "scraper"
          { url := some url }).success then 1 else 0) ≥ 2
    · refine ⟨1, by simp, ?_⟩
      simp only [scrapeLoop, if_pos h]
      simp [List.range_succ]
    · obtain ⟨k, hk, htail⟩ := scrapeLoop_shape env rest (n + 1)
        (succ + (if (execute_tool env n "scraper"
          { url := some url }).success then 1 else 0))
      refine ⟨k + 1, by simpa using hk, ?_⟩
      simp only [scrapeLoop, if_neg h, htail, List.range_succ_eq_map,
        List.map_cons, List.map_map, Nat.add_zero, List.getD_cons_zero,
        List.cons.injEq]
      refine ⟨trivial, ?_⟩
      apply List.map_congr_left
      intro i _
      simp only [Function.comp_apply, List.getD_cons_succ, Nat.succ_eq_add_one]
      congr 1
      omega

/-- The early-stop rule of the scrape loop: starting from at most one
prior success, the total success count never passes 2, and the loop stops
before exhausting its URLs only when it reaches exactly 2 successes. -/
theorem scrapeLoop_stop (env : ToolEnv) :
    ∀ (urls : List String) (n succ : Nat), succ ≤ 1 →
      succ + successCount (scrapeLoop env urls n succ).1 ≤ 2 ∧
      ((scrapeLoop env urls n succ).1.length < urls.length →
        succ + successCount (scrapeLoop env urls n succ).1 = 2)
  | [], n, succ, hsucc => by
    refine ⟨?_, ?_⟩
    · simpa [scrapeLoop, successCount] using by omega
    · intro hlen
      simp [scrapeLoop] at hlen
  | url :: rest, n, succ, hsucc => by
    have hind : (if (execute_tool env n "scraper"
        { url := some url }).success then 1 else 0) ≤ 1 := by
      split <;> omega
    by_cases h :
        succ + (if (execute_tool env n "scraper"
          { url := some url }).success then 1 else 0) ≥ 2
    · simp only [scrapeLoop, if_pos h, successCount_cons]
      constructor
      · simpa [successCount] using by omega
      · intro _
        simp only [successCount]
        simp only [List.filter_nil, List.length_nil]
        omega
    · obtain ⟨ihA, ihB⟩ := scrapeLoop_stop env rest (n + 1)
        (succ + (if (execute_tool env n "scraper"
          { url := some url }).success then 1 else 0)) (by omega)
      simp only [scrapeLoop, if_neg h, successCount_cons, List.length_cons]
      constructor
      · omega
      · intro hlen
        have := ihB (by omega)
        omega

/-- C3: for every scraper stage, scrape invocations consume the collected
URLs in original order as a prefix of the first `MAX_URLS_TO_SCRAPE = 3`
of them, the stage never passes 2 successes, it stops before exhausting
the taken URLs only at exactly 2 successes, and with 5 or more candidate
URLs whose first two scrape invocations succeed, exactly the first 2
invocations occur. -/
theorem C3_scraper_stage_early_stop (env : ToolEnv) (n : Nat)
    (urls : List String) :
    (∃ k, k ≤ (urls.take MAX_URLS_TO_SCRAPE).length ∧
      (scraperStage env n urls).1 =
        (List.range k).map (fun i => execute_tool env (n + i) "scraper"
          { url := some ((urls.take MAX_URLS_TO_SCRAPE).getD i "") })) ∧
    successCount (scraperStage env n urls).1 ≤ 2 ∧
    ((scraperStage env n urls).1.length < (urls.take MAX_URLS_TO_SCRAPE).length →
      successCount (scraperStage env n urls).1 = 2) ∧
    (urls.length ≥ 5 →
      (execute_tool env n "scraper"
        { url := some (urls.getD 0 "") }).success = true →
      (execute_tool env (n + 1) "scraper"
        { url := some (urls.getD 1 "") }).success = true →
      (scraperStage env n urls).1 =
        [execute_tool env n "scraper" { url := some (urls.getD 0 "") },
         execute_tool env (n + 1) "scraper" { url := some (urls.getD 1 "") }]) := by
  obtain ⟨hA, hB⟩ := scrapeLoop_stop env (urls.take MAX_URLS_TO_SCRAPE) n 0
    (by omega)
  refine ⟨scrapeLoop_shape env (urls.take MAX_URLS_TO_SCRAPE) n 0, ?_, ?_, ?_⟩
  · simpa [scraperStage] using hA
  · intro hlen
    have := hB (by simpa [scraperStage] using hlen)
    simpa [scraperStage] using this
  · intro h5 h1 h2
    match urls, h5 with
    | u0 :: u1 :: u2 :: u3 :: u4 :: rest, _ =>
      simp only [List.getD_cons_zero, List.getD_cons_succ] at h1 h2 ⊢
      simp only [scraperStage, MAX_URLS_TO_SCRAPE, List.take_succ_cons,
        List.take_zero, scrapeLoop, h1, h2]
      simp

/-- C3 witness: with 5 candidate URLs and an environment where every
scrape returns normally, exactly 2 scrape invocations occur, both taken in
order from the front of the URL list. -/
theorem C3_scraper_stage_early_stop_witness :
    (scraperStage okEnv 0 ["a", "b", "c", "d", "e"]).1 =
      [execute_tool okEnv 0 "scraper"
         { url := some ((["a", "b", "c", "d", "e"] : List String).getD 0 "") },
       execute_tool okEnv 1 "scraper"
         { url := some ((["a", "b", "c", "d", "e"] : List String).getD 1 "") }] :=
  (C3_scraper_stage_early_stop okEnv 0 ["a", "b", "c", "d", "e"]).2.2.2
    (by decide) (by decide) (by decide)

/-- The wrapper `execute_tool` on the scraper routes to the environment's scrape
method on the `url` argument (defaulted to the empty string). -/
theorem execute_tool_scraper_eq (env : ToolEnv) (i : Nat) (kw : KwArgs) :
    execute_tool env i "scraper" kw =
      match env.scrape i (kw.url.getD "") with
      | Except.ok payload =>
          { tool := "scraper", success := true, result := some payload,
            error := none }
      | Except.error e =>
          { tool := "scraper", success := false, result := none,
            error := some e } := rfl

/-- When the scrape collaborator returns rather than raising, the
invocation wrapper reports success. -/
theorem execute_tool_scraper_ok (env : ToolEnv)
    (h : ∀ i u, ∃ p, env.scrape i u = Except.ok p) (i : Nat) (kw : KwArgs) :
    (execute_tool env i "scraper" kw).success = true := by
  obtain ⟨p, hp⟩ := h i (kw.url.getD "")
  rw [execute_tool_scraper_eq, hp]

/-- With a never-raising scrape collaborator, the scrape loop starting at
zero successes performs exactly `min 2 (number of URLs)` invocations. -/
theorem scrapeLoop_allOk_length (env : ToolEnv)
    (h : ∀ i u, ∃ p, env.scrape i u = Except.ok p) :
    ∀ (urls : List String) (n : Nat),
      (scrapeLoop env urls n 0).1.length = min 2 urls.length
  | [], _ => rfl
  | [u], n => by
    simp only [scrapeLoop, execute_tool_scraper_ok env h, if_true]
    norm_num
  | u :: v :: rest, n => by
    simp only [scrapeLoop, execute_tool_scraper_ok env h, if_true]
    norm_num

/-- C10: whenever the scrape collaborator returns a result dictionary
rather than raising, every scraper `ToolInvocationResult` produced by the
wrapper has `success = true`, the scrape stage therefore performs exactly
`min 2 (min (number of candidate URLs) 3)` invocations regardless of what
the scrapes retrieved, and the scraper stage never contributes to
`ExecutionLog.errors`. -/
theorem C10_scraper_wrapper_success (env : ToolEnv) (n : Nat)
    (urls : List String) (plan : Plan) (limited : List String)
    (st : ExecState) (h : ∀ i u, ∃ p, env.scrape i u = Except.ok p) :
    (∀ r ∈ (scraperStage env n urls).1, r.success = true) ∧
    (scraperStage env n urls).1.length = min 2 (min urls.length 3) ∧
    (execStage env plan limited st "scraper").errors = st.errors := by
  refine ⟨?_, ?_, rfl⟩
  · intro r hr
    obtain ⟨k, -, hshape⟩ := scrapeLoop_shape env (urls.take MAX_URLS_TO_SCRAPE) n 0
    rw [scraperStage] at hr
    rw [hshape] at hr
    obtain ⟨i, -, rfl⟩ := List.mem_map.mp hr
    exact execute_tool_scraper_ok env h _ _
  · rw [scraperStage, scrapeLoop_allOk_length env h, List.length_take,
      MAX_URLS_TO_SCRAPE, Nat.min_comm 3]

/-- C10 witness: with the never-raising environment and 5 candidate URLs,
every produced result succeeds, exactly `min 2 (min 5 3) = 2` invocations
occur, and the scraper stage leaves the error list unchanged. -/
theorem C10_scraper_wrapper_success_witness :
    (∀ r ∈ (scraperStage okEnv 0 ["a", "b", "c", "d", "e"]).1,
      r.success = true) ∧
    (scraperStage okEnv 0 ["a", "b", "c", "d", "e"]).1.length =
      min 2 (min (["a", "b", "c", "d", "e"] : List String).length 3) ∧
    (execStage okEnv c1plan [] initState "scraper").errors =
      initState.errors :=
  C10_scraper_wrapper_success okEnv 0 ["a", "b", "c", "d", "e"] c1plan []
    initState (fun _ _ => ⟨{}, rfl⟩)

/-- C1 counterexample: with a plan whose only stage is a web search and an
environment whose search raises, the failed search invocation is appended
to `tool_results` but `errors` stays empty — failed invocations produced
inside the web_search (and scraper) stages are never mirrored into the
`errors` list, because those branches of the stage loop leave
`tool_result` unset (executor.py lines 121, 213-218). -/
theorem C1_counterexample :
    ¬ (∀ r ∈ (execute_plan failEnv c1plan none).tool_results,
        r.success = false →
          ∃ e ∈ (execute_plan failEnv c1plan none).errors,
            e.tool = r.tool ∧ some e.error = r.error) := by
  intro hclaim
  have htr : (execute_plan failEnv c1plan none).tool_results =
      [{ tool := "web_search", success := false, result := none,
         error := some "boom" }] := rfl
  have herr : (execute_plan failEnv c1plan none).errors = [] := rfl
  obtain ⟨e, he, -⟩ := hclaim _ (htr ▸ List.mem_singleton_self _) rfl
  rw [herr] at he
  exact List.not_mem_nil e he

/-- C1 (amended): a failed `ToolInvocationResult` is mirrored into
`ExecutionLog.errors` as `{tool, error}` exactly when it is the single
stage-level result of a data_analysis, summarizer, or generic stage; the
web_search and scraper stages append their failed invocations to
`tool_results` only and never touch `errors`. -/
theorem C1_amended_error_mirroring (env : ToolEnv) (plan : Plan)
    (limited : List String) (st : ExecState) (tool_name : String) :
    ((tool_name = "web_search" ∨ tool_name = "scraper") →
      (execStage env plan limited st tool_name).errors = st.errors) ∧
    (tool_name = "data_analysis" →
      (execStage env plan limited st tool_name).errors =
        st.errors ++ stageErrors tool_name
          (dataAnalysisStage env st.counter st.tool_results).1) ∧
    (tool_name = "summarizer" →
      (execStage env plan limited st tool_name).errors =
        st.errors ++ stageErrors tool_name
          (summarizerStage env st.counter st.tool_results).1) ∧
    (tool_name ∉ (["web_search", "scraper", "data_analysis", "summarizer"] :
        List String) →
      (execStage env plan limited st tool_name).errors =
        st.errors ++ stageErrors tool_name
          (some (execute_tool env st.counter tool_name {}))) := by
  refine ⟨?_, ?_, ?_, ?_⟩
  · rintro (rfl | rfl) <;> rfl
  · rintro rfl; rfl
  · rintro rfl; rfl
  · intro hnot
    simp only [List.mem_cons, List.not_mem_nil, or_false, not_or] at hnot
    obtain ⟨h1, h2, h3, h4⟩ := hnot
    simp only [execStage, if_neg h1, if_neg h2, if_neg h3, if_neg h4]

/-- C1 amended witness: the web_search stage of the counterexample run
leaves `errors` empty, while a failing generic (calculator) stage appends
its `{tool, error}` pair. -/
theorem C1_amended_error_mirroring_witness :
    (execStage failEnv c1plan ["q1"] initState "web_search").errors = [] ∧
    (execStage failEnv c1plan ["q1"] initState "calculator").errors =
      initState.errors ++ stageErrors "calculator"
        (some (execute_tool failEnv 0 "calculator" {})) :=
  ⟨(C1_amended_error_mirroring failEnv c1plan ["q1"] initState
      "web_search").1 (Or.inl rfl),
   (C1_amended_error_mirroring failEnv c1plan ["q1"] initState
      "calculator").2.2.2 (by decide)⟩

/-- The length of a Python slice `s[:n]`. -/
theorem pySlice_length (s : String) (n : Nat) :
    (pySlice s n).length = min n s.length := by
  obtain ⟨data⟩ := s
  simp [pySlice]

/-- A string is empty iff its length is zero. -/
theorem string_eq_empty_iff (s : String) : s = "" ↔ s.length = 0 := by
  obtain ⟨data⟩ := s
  constructor
  · intro h
    rw [h]
    rfl
  · intro h
    have hd : data = [] := by
      have : data.length = 0 := by simpa using h
      simpa using this
    rw [hd]

/-- The summarizer buffer loop keeps the buffer below 5002 characters:
each appended chunk is at most 2002 characters and the loop stops scanning
once the buffer passes 3000. -/
theorem summaryTextLoop_length :
    ∀ (L : List ToolInvocationResult) (acc : String), acc.length ≤ 3000 →
      (summaryTextLoop L acc).length ≤ 5002
  | [], acc, h => by
    simp only [summaryTextLoop]
    omega
  | r :: rest, acc, h => by
    by_cases hc : r.tool = "scraper" ∧ r.success = true
    · simp only [summaryTextLoop, if_pos hc]
      have hmin := Nat.min_le_left 2000 ((r.result.getD {}).text.getD "").length
      have hlen :
          (acc ++ pySlice ((r.result.getD {}).text.getD "") 2000
            ++ "\n\n").length ≤ 5002 := by
        simp only [String.length_append, pySlice_length]
        have h2 : ("\n\n" : String).length = 2 := rfl
        omega
      by_cases hb :
          (acc ++ pySlice ((r.result.getD {}).text.getD "") 2000
            ++ "\n\n").length > 3000
      · rw [if_pos hb]
        exact hlen
      · rw [if_neg hb]
        exact summaryTextLoop_length rest _ (by omega)
    · simp only [summaryTextLoop, if_neg hc]
      exact summaryTextLoop_length rest acc h

/-- C7: the summarizer stage, when its buffer of prior successful scrape
texts (each truncated to 2000 characters and followed by a blank line,
accumulation stopping past 3000 characters) is non-empty, issues exactly
one invocation on the buffer hard-truncated to 3000 characters with
`max_length = 150` and `style = 'concise'`; an empty buffer skips the
stage silently, leaving the whole state unchanged.  The buffer passed on
is at most 3000 characters and the accumulated buffer at most 5002. -/
theorem C7_summarizer_stage (env : ToolEnv) (plan : Plan)
    (limited : List String) (st : ExecState) (L : List ToolInvocationResult)
    (n : Nat) :
    (summaryText L ≠ "" →
      summarizerStage env n L =
        (some (execute_tool env n "summarizer"
          { text := some (pySlice (summaryText L) 3000),
            max_length := some 150, style := some "concise" }), n + 1)) ∧
    (summaryText st.tool_results = "" →
      execStage env plan limited st "summarizer" = st) ∧
    (pySlice (summaryText L) 3000).length ≤ 3000 ∧
    (summaryText L).length ≤ 5002 := by
  refine ⟨?_, ?_, ?_, ?_⟩
  · intro h
    simp only [summarizerStage, if_pos h]
  · intro h
    have hstage :
        summarizerStage env st.counter st.tool_results = (none, st.counter) := by
      simp [summarizerStage, h]
    have hexec : execStage env plan limited st "summarizer" =
        { st with
          tool_results := st.tool_results ++
            (summarizerStage env st.counter st.tool_results).1.toList,
          errors := st.errors ++ stageErrors "summarizer"
            (summarizerStage env st.counter st.tool_results).1,
          counter := (summarizerStage env st.counter st.tool_results).2 } := rfl
    rw [hexec, hstage]
    obtain ⟨tr, er, us, su, c⟩ := st
    simp [stageErrors]
  · rw [pySlice_length]
    exact Nat.min_le_left 3000 (summaryText L).length
  · exact summaryTextLoop_length L "" (by simp)

/-- C7 witness: one successful prior scrape yields a buffer `hi` plus a
blank line and exactly one summarizer invocation on its 3000-character
truncation; an empty result log skips the stage with the state intact. -/
theorem C7_summarizer_stage_witness :
    summarizerStage okEnv 0 [scrapedHi] =
      (some (execute_tool okEnv 0 "summarizer"
        { text := some (pySlice (summaryText [scrapedHi]) 3000),
          max_length := some 150, style := some "concise" }), 1) ∧
    execStage okEnv c1plan [] initState "summarizer" = initState :=
  ⟨(C7_summarizer_stage okEnv c1plan [] initState [scrapedHi] 0).1 (by decide),
   (C7_summarizer_stage okEnv c1plan [] initState [scrapedHi] 0).2.1 rfl⟩

/-- Accumulator lemma for the data-analysis buffer fold. -/
theorem analysisText_foldl_acc :
    ∀ (L : List ToolInvocationResult) (acc : String),
      L.foldl
        (fun acc r =>
          if r.tool = "scraper" ∧ r.success = true then
            acc ++ ((r.result.getD {}).text.getD "") ++ " "
          else acc) acc = acc ++ analysisText L
  | [], acc => by simp [analysisText]
  | r :: rest, acc => by
    rw [List.foldl_cons]
    rw [analysisText_foldl_acc rest]
    have hR : analysisText (r :: rest) =
        (if r.tool = "scraper" ∧ r.success = true then
          "" ++ ((r.result.getD {}).text.getD "") ++ " "
        else "") ++ analysisText rest := by
      rw [analysisText, List.foldl_cons, analysisText_foldl_acc rest]
    rw [hR]
    by_cases hc : r.tool = "scraper" ∧ r.success = true
    · simp [if_pos hc, String.append_assoc]
    · simp [if_neg hc]

/-- The data-analysis buffer is non-empty exactly when some prior
successful scraper result exists: every matching entry appends its text
plus one space. -/
theorem analysisText_ne_iff :
    ∀ (L : List ToolInvocationResult),
      analysisText L ≠ "" ↔ ∃ r ∈ L, r.tool = "scraper" ∧ r.success = true
  | [] => by simp [analysisText]
  | r :: rest => by
    have hR : analysisText (r :: rest) =
        (if r.tool = "scraper" ∧ r.success = true then
          "" ++ ((r.result.getD {}).text.getD "") ++ " "
        else "") ++ analysisText rest := by
      rw [analysisText, List.foldl_cons, analysisText_foldl_acc rest]
    by_cases hc : r.tool = "scraper" ∧ r.success = true
    · constructor
      · intro _
        exact ⟨r, List.mem_cons_self r rest, hc⟩
      · intro _
        rw [hR, if_pos hc]
        rw [Ne, string_eq_empty_iff]
        simp only [String.length_append]
        have h1 : (" " : String).length = 1 := rfl
        omega
    · rw [hR, if_neg hc]
      rw [String.empty_append]
      rw [analysisText_ne_iff rest]
      constructor
      · intro ⟨x, hx, hxc⟩
        exact ⟨x, List.mem_cons_of_mem r hx, hxc⟩
      · intro ⟨x, hx, hxc⟩
        rcases List.mem_cons.mp hx with rfl | hx2
        · exact absurd hxc hc
        · exact ⟨x, hx2, hxc⟩

/-- C8: the data_analysis stage concatenates prior successful scrape
texts (each followed by a space); a non-empty buffer yields exactly one
invocation with `create_chart = true` on that buffer, an empty buffer
skips the stage silently with the whole state unchanged, and the buffer
is non-empty exactly when some prior successful scraper result exists. -/
theorem C8_data_analysis_stage (env : ToolEnv) (plan : Plan)
    (limited : List String) (st : ExecState) (L : List ToolInvocationResult)
    (n : Nat) :
    (analysisText L ≠ "" →
      dataAnalysisStage env n L =
        (some (execute_tool env n "data_analysis"
          { text := some (analysisText L), create_chart := some true }),
         n + 1)) ∧
    (analysisText L = "" → dataAnalysisStage env n L = (none, n)) ∧
    (analysisText st.tool_results = "" →
      execStage env plan limited st "data_analysis" = st) ∧
    (analysisText L ≠ "" ↔ ∃ r ∈ L, r.tool = "scraper" ∧ r.success = true) := by
  refine ⟨?_, ?_, ?_, analysisText_ne_iff L⟩
  · intro h
    simp only [dataAnalysisStage, if_pos h]
  · intro h
    simp [dataAnalysisStage, h]
  · intro h
    have hstage :
        dataAnalysisStage env st.counter st.tool_results =
          (none, st.counter) := by
      simp [dataAnalysisStage, h]
    have hexec : execStage env plan limited st "data_analysis" =
        { st with
          tool_results := st.tool_results ++
            (dataAnalysisStage env st.counter st.tool_results).1.toList,
          errors := st.errors ++ stageErrors "data_analysis"
            (dataAnalysisStage env st.counter st.tool_results).1,
          counter := (dataAnalysisStage env st.counter st.tool_results).2 } :=
      rfl
    rw [hexec, hstage]
    obtain ⟨tr, er, us, su, c⟩ := st
    simp [stageErrors]

/-- C8 witness: one successful prior scrape with text `hi` yields the
buffer `hi ` and exactly one data-analysis invocation with
`create_chart = true`; an empty result log skips the stage with the state
intact. -/
theorem C8_data_analysis_stage_witness :
    dataAnalysisStage okEnv 0 [scrapedHi] =
      (some (execute_tool okEnv 0 "data_analysis"
        { text := some (analysisText [scrapedHi]), create_chart := some true }),
       1) ∧
    execStage okEnv c1plan [] initState "data_analysis" = initState :=
  ⟨(C8_data_analysis_stage okEnv c1plan [] initState [scrapedHi] 0).1
      (by decide),
   (C8_data_analysis_stage okEnv c1plan [] initState [scrapedHi] 0).2.2.1 rfl⟩

/-- Filtering out failed results before the citation scan changes
nothing: failed entries are skipped by the scan. -/
theorem extractLoop_filter :
    ∀ (rs : List ToolInvocationResult) (cits : List Citation)
      (seen : List String),
      extractLoop (rs.filter (fun r => r.success)) cits seen =
        extractLoop rs cits seen
  | [], _, _ => rfl
  | r :: rest, cits, seen => by
    by_cases hs : r.success = true
    · rw [List.filter_cons_of_pos (by simpa using hs)]
      simp only [extractLoop, hs]
      repeat' first
        | exact extractLoop_filter rest _ _
        | split
    · rw [List.filter_cons_of_neg (by simpa using hs)]
      have hs2 : r.success = false := by
        cases h : r.success
        · rfl
        · exact absurd h hs
      rw [extractLoop, if_pos hs2]
      exact extractLoop_filter rest _ _

/-- Adding a citation with a fresh non-empty URL preserves the scan
invariant. -/
theorem citInv_extend {cits : List Citation} {seen : List String}
    (h : citInv cits seen) {t u : String} (hu : u ≠ "") (hnew : u ∉ seen) :
    citInv (cits ++ [{ title := t, url := u }]) (seen ++ [u]) := by
  obtain ⟨hnd, hmem, hne⟩ := h
  refine ⟨?_, ?_, ?_⟩
  · rw [List.map_append, List.nodup_append]
    refine ⟨hnd, by simp, ?_⟩
    intro x hx hxu
    simp only [List.map_cons, List.map_nil, List.mem_singleton] at hxu
    obtain ⟨c, hc, rfl⟩ := List.mem_map.mp hx
    exact hnew (hxu ▸ hmem c hc)
  · intro c hc
    rcases List.mem_append.mp hc with hc1 | hc2
    · exact List.mem_append_left _ (hmem c hc1)
    · simp only [List.mem_singleton] at hc2
      subst hc2
      exact List.mem_append_right _ (by simp)
  · intro c hc
    rcases List.mem_append.mp hc with hc1 | hc2
    · exact hne c hc1
    · simp only [List.mem_singleton] at hc2
      subst hc2
      exact hu

/-- The inner search-item loop preserves the scan invariant. -/
theorem addSearchItems_inv :
    ∀ (items : List SearchItem) (cits : List Citation) (seen : List String),
      citInv cits seen →
      citInv (addSearchItems items cits seen).1
        (addSearchItems items cits seen).2
  | [], _, _, h => h
  | item :: rest, cits, seen, h => by
    by_cases hc : item.url.getD "" ≠ "" ∧ item.url.getD "" ∉ seen
    · simp only [addSearchItems, if_pos hc]
      exact addSearchItems_inv rest _ _ (citInv_extend h hc.1 hc.2)
    · simp only [addSearchItems, if_neg hc]
      exact addSearchItems_inv rest cits seen h

/-- The main citation scan preserves the invariant: the final citation
list has pairwise-distinct, non-empty URLs. -/
theorem extractLoop_inv :
    ∀ (rs : List ToolInvocationResult) (cits : List Citation)
      (seen : List String), citInv cits seen →
      ((extractLoop rs cits seen).map Citation.url).Nodup ∧
        ∀ c ∈ extractLoop rs cits seen, c.url ≠ ""
  | [], _, _, h => ⟨h.1, h.2.2⟩
  | r :: rest, cits, seen, h => by
    by_cases hs : r.success = false
    · rw [extractLoop, if_pos hs]
      exact extractLoop_inv rest cits seen h
    · rw [extractLoop, if_neg hs]
      by_cases h1 : r.tool = "web_search"
      · rw [if_pos h1]
        exact extractLoop_inv rest _ _ (addSearchItems_inv _ _ _ h)
      · rw [if_neg h1]
        by_cases h2 : r.tool = "scraper"
        · rw [if_pos h2]
          by_cases h3 : (r.result.getD {}).url.getD "" ≠ "" ∧
              (r.result.getD {}).url.getD "" ∉ seen
          · rw [if_pos h3]
            exact extractLoop_inv rest _ _ (citInv_extend h h3.1 h3.2)
          · rw [if_neg h3]
            exact extractLoop_inv rest cits seen h
        · rw [if_neg h2]
          exact extractLoop_inv rest cits seen h

/-- C5: `extract_citations` considers only `success=true` entries
(pre-filtering failed entries changes nothing), returns citations with
pairwise-distinct non-empty URLs (deduplication by exact URL string), and
on two search results carrying the same URL returns exactly one citation
for it, carrying the first-seen title (defaulting to the URL when the
title is falsy). -/
theorem C5_extract_citations_dedup (rs : List ToolInvocationResult) :
    (extract_citations (rs.filter (fun r => r.success)) =
      extract_citations rs) ∧
    ((extract_citations rs).map Citation.url).Nodup ∧
    (∀ c ∈ extract_citations rs, c.url ≠ "") ∧
    (∀ u t1 t2 : String, u ≠ "" →
      extract_citations
        [{ tool := "web_search", success := true,
           result := some
             { results := some [{ url := some u, title := some t1 }] },
           error := none },
         { tool := "web_search", success := true,
           result := some
             { results := some [{ url := some u, title := some t2 }] },
           error := none }] =
        [{ title := if t1 ≠ "" then t1 else u, url := u }]) := by
  have hinv := extractLoop_inv rs [] [] ⟨List.nodup_nil, by simp, by simp⟩
  refine ⟨extractLoop_filter rs [] [], hinv.1, hinv.2, ?_⟩
  intro u t1 t2 hu
  simp [extract_citations, extractLoop, addSearchItems, hu]

/-- C5 witness: two search results with the same URL and titles `A` and
`B` yield exactly one citation, with the first-seen title `A`. -/
theorem C5_extract_citations_dedup_witness :
    extract_citations
      [{ tool := "web_search", success := true,
         result := some
           { results := some [{ url := some "http://x", title := some "A" }] },
         error := none },
       { tool := "web_search", success := true,
         result := some
           { results := some [{ url := some "http://x", title := some "B" }] },
         error := none }] =
      [{ title := "A", url := "http://x" }] := by
  have h := (C5_extract_citations_dedup []).2.2.2 "http://x" "A" "B" (by decide)
  simpa using h

end ResearchAgent
